import Mathlib

/-!
Shallow embedding of `src/utils.py` of the visir-preprocessing repository.

A spectrum is an ordered list of (x, y) pairs of rationals (the Python code
works with floating-point values; the algorithms only compare, subtract and
concatenate, so exact rationals model every value the claims mention).

Fallible operations (pandas `.values[0]` on an empty selection, astropy
section lookup, `pandas.DataFrame` construction from unequal-length columns)
are modelled with `Option`: `none` is the raised exception propagating to the
caller.

Python's `float(...)` builtin is not repository code; the embedding abstracts
it as a parameter `pf : String → Option ℚ` (`none` = `ValueError`), so every
theorem about the text reader holds for any numeric-token parser.
-/

namespace Visir

/-- One spectral row: `(x, y)` = (wavelength, reflectance). -/
abbrev Row := ℚ × ℚ

/-- `df.loc[df["x"] == v, "y"].values[0]` — first row whose x equals `v`;
`none` models the `IndexError` raised when the selection is empty. -/
def lookupY (df : List Row) (v : ℚ) : Option ℚ :=
  ((df.filter fun r => decide (r.1 = v)).head?).map Prod.snd

/-- `df[df["x"] <= join1[0]]` (line 123): the untouched left segment. -/
def seg1Of (df : List Row) (a1 : ℚ) : List Row :=
  df.filter fun r => decide (r.1 ≤ a1)

/-- `df[(df["x"] >= join1[1]) & (df["x"] <= join2[0])]` with `y` reduced by
`d1` (lines 124-125). -/
def seg2Of (df : List Row) (a2 b1 d1 : ℚ) : List Row :=
  (df.filter fun r => decide (a2 ≤ r.1) && decide (r.1 ≤ b1)).map
    fun r => (r.1, r.2 - d1)

/-- `df[df["x"] > join2[0]]` with `y` reduced by `d2` (lines 134-135). -/
def seg3Of (df : List Row) (b1 d2 : ℚ) : List Row :=
  (df.filter fun r => decide (b1 < r.1)).map fun r => (r.1, r.2 - d2)

/-- Lines 119-127: look up `y1`, `y2`, compute `d1 = y2 - y1` and build
`transformed_array = concat([seg1, seg2])`; `none` when either boundary
lookup raises. -/
def transformedOf (df : List Row) (join1 join2 : ℚ × ℚ) : Option (List Row) :=
  match lookupY df join1.1 with
  | none => none
  | some y1 =>
    match lookupY df join1.2 with
    | none => none
    | some y2 =>
      some (seg1Of df join1.1 ++ seg2Of df join1.2 join2.1 (y2 - y1))

/-- The Offset-Correction Engine, lines 118-138 of `correct_spectral_offsets`
acting on an already-parsed spectrum: both join corrections, returning
`concat([transformed_array, seg3])`; `none` when any boundary lookup raises. -/
def correctOffsets (df : List Row) (join1 join2 : ℚ × ℚ) : Option (List Row) :=
  match transformedOf df join1 join2 with
  | none => none
  | some transformed_array =>
    match lookupY transformed_array join2.1 with
    | none => none
    | some y3 =>
      match lookupY df join2.2 with
      | none => none
      | some y4 =>
        some (transformed_array ++ seg3Of df join2.1 (y4 - y3))

/-- `line.strip().split()` — split on whitespace runs, dropping empty
tokens. -/
def tokensOf (line : String) : List String :=
  (line.split fun c => c.isWhitespace).filter fun s => decide (s ≠ "")

/-- The body of the reader loop (lines 45-54 and 105-114): a line yields a
row iff it contains a tab, strips/splits into exactly two tokens, and both
tokens parse as numbers; otherwise it is silently skipped. -/
def parseSpectralLine (pf : String → Option ℚ) (line : String) : Option Row :=
  if line.contains '\t' then
    match tokensOf line with
    | [t1, t2] =>
      match pf t1 with
      | none => none
      | some x_val =>
        match pf t2 with
        | none => none
        | some y_val => some (x_val, y_val)
    | _ => none
  else none

/-- The reader loop with its `spectral_data.append` accumulator. -/
def extractLoop (pf : String → Option ℚ) : List String → List Row → List Row
  | [], acc => acc
  | line :: rest, acc =>
    match parseSpectralLine pf line with
    | some p => extractLoop pf rest (acc ++ [p])
    | none => extractLoop pf rest acc

/-- The parsed `df` built by both file-reading functions from the lines of
the file. -/
def parseSpectralLines (pf : String → Option ℚ) (lines : List String) :
    List Row :=
  extractLoop pf lines []

/-- Default `join1` of both functions. -/
def join1Default : ℚ × ℚ := (1000, 1001)

/-- Default `join2` of both functions. -/
def join2Default : ℚ × ℚ := (1800, 1801)

/-- `correct_spectral_offsets` (lines 85-138): parse the file's lines, then
apply both join corrections.  The file itself is modelled by its list of
lines. -/
def correct_spectral_offsets (pf : String → Option ℚ) (lines : List String)
    (join1 join2 : ℚ × ℚ) : Option (List Row) :=
  let df := parseSpectralLines pf lines
  match lookupY df join1.1 with
  | none => none
  | some y1 =>
    match lookupY df join1.2 with
    | none => none
    | some y2 =>
      let d1 := y2 - y1
      let transformed_array := seg1Of df join1.1 ++ seg2Of df join1.2 join2.1 d1
      match lookupY transformed_array join2.1 with
      | none => none
      | some y3 =>
        match lookupY df join2.2 with
        | none => none
        | some y4 =>
          let d2 := y4 - y3
          some (transformed_array ++ seg3Of df join2.1 d2)

/-- `extract_spectrum_from_txt` (lines 25-83): parse the file's lines; when
`correct_offsets` is set, run the (duplicated, lines 58-81) correction code
with joins taken from `offset_params` (here two `Option` arguments, `none` =
key absent, defaulting as `offset_params.get` does); otherwise return the
parsed rows unchanged. -/
def extract_spectrum_from_txt (pf : String → Option ℚ) (lines : List String)
    (correct_offsets : Bool) (join1? join2? : Option (ℚ × ℚ)) :
    Option (List Row) :=
  let df := parseSpectralLines pf lines
  if correct_offsets then
    let join1 := join1?.getD (1000, 1001)
    let join2 := join2?.getD (1800, 1801)
    match lookupY df join1.1 with
    | none => none
    | some y1 =>
      match lookupY df join1.2 with
      | none => none
      | some y2 =>
        let d1 := y2 - y1
        let transformed_array :=
          seg1Of df join1.1 ++ seg2Of df join1.2 join2.1 d1
        match lookupY transformed_array join2.1 with
        | none => none
        | some y3 =>
          match lookupY df join2.2 with
          | none => none
          | some y4 =>
            let d2 := y4 - y3
            some (transformed_array ++ seg3Of df join2.1 d2)
  else
    some df

/-! ### Binary-Table (FITS) reader, lines 7-23

The astropy/pandas calls are library behaviour, modelled by their documented
semantics: `hdul[name]` returns the first HDU with that extension name
(`KeyError` = `none` when absent), `data[field]` returns the named column
(`KeyError` = `none` when absent), and `pd.DataFrame` of two columns raises
`ValueError` (= `none`) when their lengths differ, never truncating. -/

/-- One header-data unit: an extension name and its named columns. -/
structure HDU where
  name : String
  fields : List (String × List ℚ)

/-- `hdul[name]`: first HDU whose extension name matches; `none` =
`KeyError`. -/
def getHDU (hdul : List HDU) (n : String) : Option HDU :=
  hdul.find? fun h => decide (h.name = n)

/-- `hdu.data[field]`: the named column; `none` = `KeyError`. -/
def getField (h : HDU) (fn : String) : Option (List ℚ) :=
  (h.fields.find? fun p => decide (p.1 = fn)).map Prod.snd

/-- `pd.DataFrame({x: xs, y: ys})`: pairs the columns positionally; `none` =
the `ValueError` pandas raises on unequal column lengths. -/
def mkDataFrame (xs ys : List ℚ) : Option (List Row) :=
  if xs.length = ys.length then some (xs.zip ys) else none

/-- Extension name of the reflectance table. -/
def spectraName : String := "Spectra"

/-- Field name of the reflectance column. -/
def reflectanceField : String := "I_F_Atm"

/-- Extension name of the wavelength table. -/
def wavelengthName : String := "Wavelength"

/-- Field name of the wavelength column. -/
def wavelengthField : String := "Wavelength (um)"

/-- `extract_spectrum_from_fits` (lines 7-23): read the reflectance and
wavelength columns and build the two-column frame with x = wavelength,
y = reflectance. -/
def extract_spectrum_from_fits (hdul : List HDU) : Option (List Row) :=
  match getHDU hdul spectraName with
  | none => none
  | some sh =>
    match getField sh reflectanceField with
    | none => none
    | some reflectance =>
      match getHDU hdul wavelengthName with
      | none => none
      | some wh =>
        match getField wh wavelengthField with
        | none => none
        | some wavelength => mkDataFrame wavelength reflectance

/-! ### Batch converter, lines 140-175

A directory entry is modelled by its stem, its suffix, and its content under
each reader's view (the bytes parsed as a FITS structure and as text lines;
the dispatcher picks the view matching the suffix).  Reader errors are the
`none` results of the readers above; the `try/except` of the loop body turns
them into a reported per-file error.  The set of files already present in
the output directory is threaded through the loop, since each `to_csv`
makes the next `output_csv.exists()` check see the new file. -/

/-- A directory entry. -/
structure DirEntry where
  stem : String
  suffix : String
  fitsData : List HDU
  txtData : List String

/-- The per-file outcome the loop body prints or performs. -/
inductive FileOutcome where
  | written (csvName : String) (rows : List Row)
  | skippedExists (csvName : String)
  | errorReported (fileName : String)
  | skippedSuffix (fileName : String)
deriving DecidableEq

/-- The `try` block's reader dispatch (lines 166-169). -/
def convertFile (pf : String → Option ℚ) (correct_txt_offsets : Bool)
    (join1? join2? : Option (ℚ × ℚ)) (f : DirEntry) : Option (List Row) :=
  if f.suffix = ".fits" then extract_spectrum_from_fits f.fitsData
  else extract_spectrum_from_txt pf f.txtData correct_txt_offsets join1? join2?

/-- The folder loop (lines 159-175): one outcome per directory entry, and
the set of existing output files after processing.  `outputs` is the list of
file names already present in the output directory. -/
def preprocess_spectral_folder (pf : String → Option ℚ)
    (overwrite correct_txt_offsets : Bool) (join1? join2? : Option (ℚ × ℚ)) :
    List DirEntry → List String → List FileOutcome × List String
  | [], outputs => ([], outputs)
  | f :: rest, outputs =>
    if f.suffix = ".fits" ∨ f.suffix = ".txt" then
      let csvName := f.stem ++ ".csv"
      if csvName ∈ outputs ∧ overwrite = false then
        let r := preprocess_spectral_folder pf overwrite correct_txt_offsets
          join1? join2? rest outputs
        (FileOutcome.skippedExists csvName :: r.1, r.2)
      else
        match convertFile pf correct_txt_offsets join1? join2? f with
        | none =>
          let r := preprocess_spectral_folder pf overwrite correct_txt_offsets
            join1? join2? rest outputs
          (FileOutcome.errorReported (f.stem ++ f.suffix) :: r.1, r.2)
        | some df =>
          let r := preprocess_spectral_folder pf overwrite correct_txt_offsets
            join1? join2? rest (csvName :: outputs)
          (FileOutcome.written csvName df :: r.1, r.2)
    else
      let r := preprocess_spectral_folder pf overwrite correct_txt_offsets
        join1? join2? rest outputs
      (FileOutcome.skippedSuffix (f.stem ++ f.suffix) :: r.1, r.2)

/-! ## Helper lemmas -/

/-- The reader loop's accumulator: the loop computes a `filterMap` of the
per-line parser over the lines, appended to the accumulator. -/
theorem extractLoop_eq_filterMap (pf : String → Option ℚ) :
    ∀ (lines : List String) (acc : List Row),
      extractLoop pf lines acc = acc ++ lines.filterMap (parseSpectralLine pf) := by
  intro lines
  induction lines with
  | nil => intro acc; simp [extractLoop]
  | cons line rest ih =>
    intro acc
    cases h : parseSpectralLine pf line with
    | none => simp [extractLoop, h, ih]
    | some p => simp [extractLoop, h, ih]

/-- Splitting a list by four boolean predicates of which exactly one holds
on every element splits its length. -/
theorem length_filter_partition {α : Type} (p1 p2 p3 p4 : α → Bool)
    (h : ∀ a, (p1 a).toNat + (p2 a).toNat + (p3 a).toNat + (p4 a).toNat = 1) :
    ∀ l : List α,
      (l.filter p1).length + (l.filter p2).length + (l.filter p3).length +
        (l.filter p4).length = l.length := by
  intro l
  induction l with
  | nil => simp
  | cons a l ih =>
    have ha := h a
    cases hp1 : p1 a <;> cases hp2 : p2 a <;> cases hp3 : p3 a <;>
      cases hp4 : p4 a <;>
      simp only [hp1, hp2, hp3, hp4, Bool.toNat_true, Bool.toNat_false] at ha <;>
      simp [List.filter_cons, hp1, hp2, hp3, hp4] <;> omega

/-- On a join specification satisfying the assumed invariant
`a1 < a2 ≤ b1 < b2`, each row's x falls in exactly one of: segment 1,
segment 2, segment 3, or the dropped gap `a1 < x < a2`. -/
theorem segment_predicates_partition (join1 join2 : ℚ × ℚ)
    (hj1 : join1.1 < join1.2) (hj12 : join1.2 ≤ join2.1) (r : Row) :
    ((fun r : Row => decide (r.1 ≤ join1.1)) r).toNat +
      ((fun r : Row => decide (join1.2 ≤ r.1) && decide (r.1 ≤ join2.1)) r).toNat +
      ((fun r : Row => decide (join2.1 < r.1)) r).toNat +
      ((fun r : Row => decide (join1.1 < r.1) && decide (r.1 < join1.2)) r).toNat
      = 1 := by
  rcases le_or_lt r.1 join1.1 with ha | ha
  · have h2 : ¬ join1.2 ≤ r.1 := by linarith
    have h3 : ¬ join2.1 < r.1 := by linarith
    have h4 : ¬ join1.1 < r.1 := not_lt.mpr ha
    simp [ha, h2, h3, h4]
  · rcases lt_or_le r.1 join1.2 with hb | hb
    · have h1 : ¬ r.1 ≤ join1.1 := not_le.mpr ha
      have h2 : ¬ join1.2 ≤ r.1 := not_le.mpr hb
      have h3 : ¬ join2.1 < r.1 := by linarith
      simp [h1, h2, h3, ha, hb]
    · rcases le_or_lt r.1 join2.1 with hc | hc
      · have h1 : ¬ r.1 ≤ join1.1 := by linarith
        have h3 : ¬ join2.1 < r.1 := not_lt.mpr hc
        have h4 : ¬ r.1 < join1.2 := not_lt.mpr hb
        simp [h1, h3, h4, hb, hc]
      · have h1 : ¬ r.1 ≤ join1.1 := by linarith
        have h2 : ¬ r.1 ≤ join2.1 := not_le.mpr hc
        have h4 : ¬ r.1 < join1.2 := by linarith
        simp [h1, h2, h4, hc]

/-! ## Claim theorems -/

/-- C1: on the input spectrum
`[(999,1),(1000,2),(1001,5),(1500,5),(1800,3),(1801,10),(2000,10)]` with
join1 = (1000,1001) and join2 = (1800,1801), the Offset-Correction Engine
finds y1 = 2 and y2 = 5 (so d1 = 3), keeps the rows with x ≤ 1000
untouched, subtracts 3 on 1001 ≤ x ≤ 1800 giving the merged array
`[(999,1),(1000,2),(1001,2),(1500,2),(1800,0)]`, reads y3 = 0 from that
merged array and y4 = 10 from the original (so d2 = 10), subtracts 10 on
x > 1800 of the original, and returns exactly
`[(999,1),(1000,2),(1001,2),(1500,2),(1800,0),(1801,0),(2000,0)]`. -/
theorem C1_offset_correction_worked_example :
    lookupY [(999,1),(1000,2),(1001,5),(1500,5),(1800,3),(1801,10),(2000,10)]
      1000 = some 2 ∧
    lookupY [(999,1),(1000,2),(1001,5),(1500,5),(1800,3),(1801,10),(2000,10)]
      1001 = some 5 ∧
    seg1Of [(999,1),(1000,2),(1001,5),(1500,5),(1800,3),(1801,10),(2000,10)]
      1000 = [(999,1),(1000,2)] ∧
    transformedOf
      [(999,1),(1000,2),(1001,5),(1500,5),(1800,3),(1801,10),(2000,10)]
      (1000,1001) (1800,1801)
      = some [(999,1),(1000,2),(1001,2),(1500,2),(1800,0)] ∧
    lookupY [(999,1),(1000,2),(1001,2),(1500,2),(1800,0)] 1800 = some 0 ∧
    lookupY [(999,1),(1000,2),(1001,5),(1500,5),(1800,3),(1801,10),(2000,10)]
      1801 = some 10 ∧
    correctOffsets
      [(999,1),(1000,2),(1001,5),(1500,5),(1800,3),(1801,10),(2000,10)]
      (1000,1001) (1800,1801)
      = some [(999,1),(1000,2),(1001,2),(1500,2),(1800,0),(1801,0),(2000,0)] := by
  refine ⟨?_, ?_, ?_, ?_, ?_, ?_, ?_⟩ <;>
    norm_num [correctOffsets, transformedOf, lookupY, seg1Of, seg2Of, seg3Of,
      List.filter]

/-- C2: the Offset-Correction Engine is not idempotent in general — there is
a spectrum and a join specification on which it succeeds twice and the
second application changes the data again — but whenever the data it is
applied to already satisfies the post-condition (the looked-up y at
join1[0] equals the looked-up y at join1[1], and the post-merge y at
join2[0] equals the looked-up y at join2[1]), the freshly recomputed biases
are zero: the segments are shifted by 0. -/
theorem C2_offset_correction_not_idempotent :
    (correctOffsets [(999,1),(1000,2),(1001,5),(1800,10)]
        (1000,1001) (999,1800)
        = some [(999,1),(1000,2),(1000,-7),(1001,-4),(1800,1)] ∧
      correctOffsets [(999,1),(1000,2),(1000,-7),(1001,-4),(1800,1)]
        (1000,1001) (999,1800)
        = some [(999,1),(1000,2),(1000,-7),(1000,2),(1000,-7),(1001,-4),(1800,1)] ∧
      ([(999,1),(1000,2),(1000,-7),(1000,2),(1000,-7),(1001,-4),(1800,1)] :
        List Row)
        ≠ [(999,1),(1000,2),(1000,-7),(1001,-4),(1800,1)]) ∧
    (∀ (df : List Row) (join1 join2 : ℚ × ℚ) (y : ℚ),
      lookupY df join1.1 = some y → lookupY df join1.2 = some y →
      transformedOf df join1 join2
        = some (seg1Of df join1.1 ++ seg2Of df join1.2 join2.1 0)) ∧
    (∀ (df : List Row) (join1 join2 : ℚ × ℚ) (t : List Row) (y : ℚ),
      transformedOf df join1 join2 = some t →
      lookupY t join2.1 = some y → lookupY df join2.2 = some y →
      correctOffsets df join1 join2 = some (t ++ seg3Of df join2.1 0)) := by
  refine ⟨⟨?_, ?_, ?_⟩, ?_, ?_⟩
  · norm_num [correctOffsets, transformedOf, lookupY, seg1Of, seg2Of, seg3Of,
      List.filter]
  · norm_num [correctOffsets, transformedOf, lookupY, seg1Of, seg2Of, seg3Of,
      List.filter]
  · norm_num
  · intro df join1 join2 y h1 h2
    simp [transformedOf, h1, h2]
  · intro df join1 join2 t y ht h3 h4
    simp [correctOffsets, ht, h3, h4]

/-- C2 witness: the zero-bias clauses applied to a concrete flat spectrum
whose boundary values already agree. -/
theorem C2_offset_correction_not_idempotent_witness :
    transformedOf [((1000:ℚ),(5:ℚ)),(1001,5),(1800,5),(1801,5)]
      (1000,1001) (1800,1801)
      = some (seg1Of [((1000:ℚ),(5:ℚ)),(1001,5),(1800,5),(1801,5)] 1000 ++
          seg2Of [((1000:ℚ),(5:ℚ)),(1001,5),(1800,5),(1801,5)] 1001 1800 0) :=
  C2_offset_correction_not_idempotent.2.1
    [((1000:ℚ),(5:ℚ)),(1001,5),(1800,5),(1801,5)] (1000,1001) (1800,1801) 5
    (by norm_num [lookupY, List.filter]) (by norm_num [lookupY, List.filter])

/-- C3: for every file content (list of lines), every numeric-token parser
and every join specification, `extract_spectrum_from_txt` with
`correct_offsets` set returns exactly what `correct_spectral_offsets`
returns on the same content with the same joins — the two functions are two
copies of one algorithm — and their default join parameters coincide at
((1000,1001), (1800,1801)). -/
theorem C3_txt_reader_refines_correct_offsets :
    (∀ (pf : String → Option ℚ) (lines : List String) (join1 join2 : ℚ × ℚ),
      extract_spectrum_from_txt pf lines true (some join1) (some join2)
        = correct_spectral_offsets pf lines join1 join2) ∧
    (∀ (pf : String → Option ℚ) (lines : List String),
      extract_spectrum_from_txt pf lines true none none
        = correct_spectral_offsets pf lines join1Default join2Default) ∧
    join1Default = (1000, 1001) ∧ join2Default = (1800, 1801) := by
  refine ⟨fun pf lines join1 join2 => rfl, fun pf lines => rfl, rfl, rfl⟩

/-- C4: the Delimited-Text Spectrum Reader without correction returns, in
file order, exactly the (x, y) pairs of the lines that contain a tab and
strip/split into exactly two tokens both parsed by the numeric parser; a
line without a tab is always skipped, any other line yields no row, and the
reader is total — it never fails on content, returning `some` for every
input. -/
theorem C4_txt_reader_line_filter :
    ∀ (pf : String → Option ℚ) (lines : List String),
      parseSpectralLines pf lines = lines.filterMap (parseSpectralLine pf) ∧
      (∀ join1? join2? : Option (ℚ × ℚ),
        extract_spectrum_from_txt pf lines false join1? join2?
          = some (parseSpectralLines pf lines)) ∧
      (∀ (line : String) (x y : ℚ),
        parseSpectralLine pf line = some (x, y) ↔
          line.contains '\t' = true ∧
          ∃ t1 t2, tokensOf line = [t1, t2] ∧ pf t1 = some x ∧ pf t2 = some y) ∧
      (∀ line : String, line.contains '\t' = false →
        parseSpectralLine pf line = none) := by
  intro pf lines
  refine ⟨extractLoop_eq_filterMap pf lines [], fun join1? join2? => rfl,
    ?_, ?_⟩
  · intro line x y
    constructor
    · intro hp
      unfold parseSpectralLine at hp
      split at hp
      case isTrue htab =>
        refine ⟨htab, ?_⟩
        split at hp
        case _ t1 t2 heq =>
          cases h1 : pf t1 with
          | none => rw [h1] at hp; simp at hp
          | some xv =>
            rw [h1] at hp
            cases h2 : pf t2 with
            | none => rw [h2] at hp; simp at hp
            | some yv =>
              rw [h2] at hp
              simp only [Option.some.injEq, Prod.mk.injEq] at hp
              exact ⟨t1, t2, heq, by rw [h1, hp.1], by rw [h2, hp.2]⟩
        case _ heq => simp at hp
      case isFalse htab => simp at hp
    · rintro ⟨htab, t1, t2, ht, h1, h2⟩
      simp [parseSpectralLine, htab, ht, h1, h2]
  · intro line htab
    simp [parseSpectralLine, htab]

/-- C4 witness: on a concrete (empty) input with a concrete parser the
uncorrected reader succeeds, returning the parsed rows. -/
theorem C4_txt_reader_line_filter_witness :
    extract_spectrum_from_txt (fun _ => none) [] false none none
      = some (parseSpectralLines (fun _ => none) []) :=
  ((C4_txt_reader_line_filter (fun _ => none) []).2.1) none none

/-- C5: every boundary lookup failure (join1[0], join1[1] or join2[1] absent
from the parsed spectrum, or join2[0] absent from the merged
partially-corrected array) makes the Offset-Correction Engine return the
error (`none`) to its caller, and conversely a successful run certifies
that all four lookups succeeded — no error is swallowed and no
nearest-neighbor fallback exists. -/
theorem C5_boundary_lookup_errors_propagate :
    ∀ (df : List Row) (join1 join2 : ℚ × ℚ),
      (lookupY df join1.1 = none → correctOffsets df join1 join2 = none) ∧
      (lookupY df join1.2 = none → correctOffsets df join1 join2 = none) ∧
      (∀ t, transformedOf df join1 join2 = some t →
        lookupY t join2.1 = none → correctOffsets df join1 join2 = none) ∧
      (lookupY df join2.2 = none → correctOffsets df join1 join2 = none) ∧
      (∀ out, correctOffsets df join1 join2 = some out →
        ∃ y1 y2 t y3 y4,
          lookupY df join1.1 = some y1 ∧ lookupY df join1.2 = some y2 ∧
          transformedOf df join1 join2 = some t ∧
          t = seg1Of df join1.1 ++ seg2Of df join1.2 join2.1 (y2 - y1) ∧
          lookupY t join2.1 = some y3 ∧ lookupY df join2.2 = some y4 ∧
          out = t ++ seg3Of df join2.1 (y4 - y3)) := by
  intro df join1 join2
  refine ⟨?_, ?_, ?_, ?_, ?_⟩
  · intro h; simp [correctOffsets, transformedOf, h]
  · intro h
    cases h1 : lookupY df join1.1 with
    | none => simp [correctOffsets, transformedOf, h1]
    | some y1 => simp [correctOffsets, transformedOf, h1, h]
  · intro t ht h3
    simp [correctOffsets, ht, h3]
  · intro h4
    cases ht : transformedOf df join1 join2 with
    | none => simp [correctOffsets, ht]
    | some t =>
      cases h3 : lookupY t join2.1 with
      | none => simp [correctOffsets, ht, h3]
      | some y3 => simp [correctOffsets, ht, h3, h4]
  · intro out hout
    unfold correctOffsets at hout
    split at hout
    next => exact absurd hout (by simp)
    next t ht =>
      split at hout
      next => exact absurd hout (by simp)
      next y3 h3 =>
        split at hout
        next => exact absurd hout (by simp)
        next y4 h4 =>
          simp only [Option.some.injEq] at hout
          have ht' := ht
          unfold transformedOf at ht'
          split at ht'
          next => exact absurd ht' (by simp)
          next y1 h1 =>
            split at ht'
            next => exact absurd ht' (by simp)
            next y2 h2 =>
              simp only [Option.some.injEq] at ht'
              exact ⟨y1, y2, t, y3, y4, h1, h2, ht, ht'.symm, h3, h4,
                hout.symm⟩

/-- C5 witness: on the empty spectrum the first boundary lookup fails, and
the engine reports the error. -/
theorem C5_boundary_lookup_errors_propagate_witness :
    correctOffsets [] (1000, 1001) (1800, 1801) = none :=
  (C5_boundary_lookup_errors_propagate [] (1000, 1001) (1800, 1801)).1 rfl

/-- C6: under the assumed join invariant `join1[0] < join1[1] ≤ join2[0] <
join2[1]`, a successful correction keeps exactly one output row per input
row except the rows with `join1[0] < x < join1[1]`, which are silently
dropped: the output length plus the number of gap rows equals the input
length, and the output is precisely the three disjoint filtered segments
concatenated (so no other row is duplicated or lost). -/
theorem C6_gap_rows_dropped (df : List Row) (join1 join2 : ℚ × ℚ)
    (out : List Row) (hj1 : join1.1 < join1.2) (hj12 : join1.2 ≤ join2.1)
    (hj2 : join2.1 < join2.2)
    (hout : correctOffsets df join1 join2 = some out) :
    out.length +
      (df.filter fun r =>
        decide (join1.1 < r.1) && decide (r.1 < join1.2)).length
      = df.length ∧
    ∃ d1 d2, out = seg1Of df join1.1 ++ seg2Of df join1.2 join2.1 d1 ++
      seg3Of df join2.1 d2 := by
  unfold correctOffsets at hout
  split at hout
  next => exact absurd hout (by simp)
  next t ht =>
    split at hout
    next => exact absurd hout (by simp)
    next y3 h3 =>
      split at hout
      next => exact absurd hout (by simp)
      next y4 h4 =>
        simp only [Option.some.injEq] at hout
        unfold transformedOf at ht
        split at ht
        next => exact absurd ht (by simp)
        next y1 h1 =>
          split at ht
          next => exact absurd ht (by simp)
          next y2 h2 =>
            simp only [Option.some.injEq] at ht
            subst ht
            constructor
            · have hpart := length_filter_partition
                (fun r : Row => decide (r.1 ≤ join1.1))
                (fun r : Row => decide (join1.2 ≤ r.1) && decide (r.1 ≤ join2.1))
                (fun r : Row => decide (join2.1 < r.1))
                (fun r : Row => decide (join1.1 < r.1) && decide (r.1 < join1.2))
                (segment_predicates_partition join1 join2 hj1 hj12) df
              rw [← hout]
              simp only [List.length_append, seg1Of, seg2Of, seg3Of,
                List.length_map]
              omega
            · exact ⟨y2 - y1, y4 - y3, by rw [← hout, List.append_assoc]⟩

/-- C6 witness: a concrete spectrum with one row at x = 1000.5 inside the
join1 gap loses exactly that row: five input rows, four output rows. -/
theorem C6_gap_rows_dropped_witness :
    ([(1000,2),(1001,2),(1800,3),(1801,3)] : List Row).length +
      (([(1000,2),(2001/2,9),(1001,2),(1800,3),(1801,3)] : List Row).filter
        fun r => decide ((1000:ℚ) < r.1) && decide (r.1 < (1001:ℚ))).length
      = ([(1000,2),(2001/2,9),(1001,2),(1800,3),(1801,3)] : List Row).length ∧
    ∃ d1 d2,
      ([(1000,2),(1001,2),(1800,3),(1801,3)] : List Row)
        = seg1Of [(1000,2),(2001/2,9),(1001,2),(1800,3),(1801,3)] 1000 ++
          seg2Of [(1000,2),(2001/2,9),(1001,2),(1800,3),(1801,3)] 1001 1800 d1 ++
          seg3Of [(1000,2),(2001/2,9),(1001,2),(1800,3),(1801,3)] 1800 d2 :=
  C6_gap_rows_dropped [(1000,2),(2001/2,9),(1001,2),(1800,3),(1801,3)]
    (1000,1001) (1800,1801) [(1000,2),(1001,2),(1800,3),(1801,3)]
    (by norm_num) (by norm_num) (by norm_num)
    (by norm_num [correctOffsets, transformedOf, lookupY, seg1Of, seg2Of,
      seg3Of, List.filter])

/-- C7: the boundary lookup used for y1, y2, y3 and y4 returns the y of the
first row whose x matches, whatever duplicate-x rows follow; and the engine
performs no deduplication — on a concrete spectrum with two x = 1001 rows,
d1 is computed from the first one and both duplicates survive, corrected,
in the output. -/
theorem C7_lookup_first_match_no_dedup :
    (∀ (pre : List Row) (v y : ℚ) (rest : List Row),
      (∀ r ∈ pre, r.1 ≠ v) → lookupY (pre ++ (v, y) :: rest) v = some y) ∧
    lookupY [(999,1),(1000,2),(1001,5),(1001,7),(1800,5),(1801,6),(2000,6)]
      1001 = some 5 ∧
    correctOffsets
      [(999,1),(1000,2),(1001,5),(1001,7),(1800,5),(1801,6),(2000,6)]
      (1000,1001) (1800,1801)
      = some [(999,1),(1000,2),(1001,2),(1001,4),(1800,2),(1801,2),(2000,2)] := by
  refine ⟨?_, ?_, ?_⟩
  · intro pre v y rest
    induction pre with
    | nil => intro h; simp [lookupY]
    | cons a pre ih =>
      intro h
      have ha : a.1 ≠ v := h a (List.mem_cons_self a pre)
      have hrest : ∀ r ∈ pre, r.1 ≠ v :=
        fun r hr => h r (List.mem_cons_of_mem a hr)
      simpa [lookupY, List.filter_cons, ha] using ih hrest
  · norm_num [lookupY, List.filter]
  · norm_num [correctOffsets, transformedOf, lookupY, seg1Of, seg2Of, seg3Of,
      List.filter]

/-- C7 witness: the first-match clause on a concrete list with a duplicate
x = 1001 further right. -/
theorem C7_lookup_first_match_no_dedup_witness :
    lookupY ([((999:ℚ),(1:ℚ))] ++ ((1001:ℚ),(5:ℚ)) :: [((1001:ℚ),(7:ℚ))])
      1001 = some 5 :=
  C7_lookup_first_match_no_dedup.1 [(999,1)] 1001 5 [(1001,7)]
    (by intro r hr; simp at hr; subst hr; norm_num)

/-- C8: under the assumed join invariant, a successful correction leaves the
segment-1 rows exactly as they were — filtering the output at x ≤ join1[0]
gives back the input rows at x ≤ join1[0], x and y untouched, in order —
and no x value anywhere in the output differs from its source row's x: the
output's x column is exactly the x columns of the three segment filters of
the input. -/
theorem C8_segment1_and_x_untouched (df : List Row) (join1 join2 : ℚ × ℚ)
    (out : List Row) (hj1 : join1.1 < join1.2) (hj12 : join1.2 ≤ join2.1)
    (hj2 : join2.1 < join2.2)
    (hout : correctOffsets df join1 join2 = some out) :
    out.filter (fun r => decide (r.1 ≤ join1.1))
      = df.filter (fun r => decide (r.1 ≤ join1.1)) ∧
    out.map Prod.fst
      = (df.filter fun r => decide (r.1 ≤ join1.1)).map Prod.fst ++
        (df.filter fun r =>
          decide (join1.2 ≤ r.1) && decide (r.1 ≤ join2.1)).map Prod.fst ++
        (df.filter fun r => decide (join2.1 < r.1)).map Prod.fst := by
  obtain ⟨y1, y2, t, y3, y4, h1, h2, ht, htdef, h3, h4, hodef⟩ :=
    (C5_boundary_lookup_errors_propagate df join1 join2).2.2.2.2 out hout
  subst htdef
  subst hodef
  constructor
  · have hs1 : (seg1Of df join1.1).filter (fun r => decide (r.1 ≤ join1.1))
        = seg1Of df join1.1 := by
      rw [List.filter_eq_self]
      intro a hmem
      simp only [seg1Of] at hmem
      simpa using List.of_mem_filter hmem
    have hs2 : (seg2Of df join1.2 join2.1 (y2 - y1)).filter
        (fun r => decide (r.1 ≤ join1.1)) = [] := by
      rw [List.filter_eq_nil_iff]
      intro a hmem
      obtain ⟨b, hb, rfl⟩ := List.mem_map.mp hmem
      have hq := List.of_mem_filter hb
      simp only [Bool.and_eq_true, decide_eq_true_eq] at hq
      simp only [decide_eq_true_eq]
      intro hle
      linarith [hq.1]
    have hs3 : (seg3Of df join2.1 (y4 - y3)).filter
        (fun r => decide (r.1 ≤ join1.1)) = [] := by
      rw [List.filter_eq_nil_iff]
      intro a hmem
      obtain ⟨b, hb, rfl⟩ := List.mem_map.mp hmem
      have hq := List.of_mem_filter hb
      simp only [decide_eq_true_eq] at hq
      simp only [decide_eq_true_eq]
      intro hle
      linarith
    simp [List.filter_append, hs1, hs2, hs3, seg1Of]
  · simp only [List.map_append, List.append_assoc, seg1Of, seg2Of, seg3Of,
      List.map_map]
    rfl

/-- C8 witness: the frame facts on a concrete four-row spectrum. -/
theorem C8_segment1_and_x_untouched_witness :
    ([(1000,2),(1001,2),(1800,3),(1801,3)] : List Row).filter
        (fun r => decide (r.1 ≤ (1000:ℚ)))
      = ([(1000,2),(1001,3),(1800,4),(1801,5)] : List Row).filter
        (fun r => decide (r.1 ≤ (1000:ℚ))) ∧
    ([(1000,2),(1001,2),(1800,3),(1801,3)] : List Row).map Prod.fst
      = (([(1000,2),(1001,3),(1800,4),(1801,5)] : List Row).filter
          fun r => decide (r.1 ≤ (1000:ℚ))).map Prod.fst ++
        (([(1000,2),(1001,3),(1800,4),(1801,5)] : List Row).filter
          fun r => decide ((1001:ℚ) ≤ r.1) && decide (r.1 ≤ (1800:ℚ))).map
          Prod.fst ++
        (([(1000,2),(1001,3),(1800,4),(1801,5)] : List Row).filter
          fun r => decide ((1800:ℚ) < r.1)).map Prod.fst :=
  C8_segment1_and_x_untouched [(1000,2),(1001,3),(1800,4),(1801,5)]
    (1000,1001) (1800,1801) [(1000,2),(1001,2),(1800,3),(1801,3)]
    (by norm_num) (by norm_num) (by norm_num)
    (by norm_num [correctOffsets, transformedOf, lookupY, seg1Of, seg2Of,
      seg3Of, List.filter])

/-- C9: when both named sections and fields are present and the two columns
have equal length, the Binary-Table Spectrum Reader returns a two-column
result with exactly that many rows, pairing wavelength (x) with reflectance
(y) in stored order; when either named section or field is absent, or the
column lengths differ, it returns the error instead of truncating. -/
theorem C9_fits_reader_columns (hdul : List HDU) :
    (∀ (sh wh : HDU) (refl wav : List ℚ),
      getHDU hdul spectraName = some sh →
      getField sh reflectanceField = some refl →
      getHDU hdul wavelengthName = some wh →
      getField wh wavelengthField = some wav →
      (wav.length = refl.length →
        extract_spectrum_from_fits hdul = some (wav.zip refl) ∧
        (wav.zip refl).length = wav.length ∧
        (wav.zip refl).map Prod.fst = wav ∧
        (wav.zip refl).map Prod.snd = refl) ∧
      (wav.length ≠ refl.length → extract_spectrum_from_fits hdul = none)) ∧
    ((getHDU hdul spectraName = none ∨
      (∃ sh, getHDU hdul spectraName = some sh ∧
        getField sh reflectanceField = none) ∨
      getHDU hdul wavelengthName = none ∨
      (∃ wh, getHDU hdul wavelengthName = some wh ∧
        getField wh wavelengthField = none)) →
      extract_spectrum_from_fits hdul = none) := by
  constructor
  · intro sh wh refl wav hsh hrefl hwh hwav
    constructor
    · intro hlen
      refine ⟨?_, ?_, ?_, ?_⟩
      · simp [extract_spectrum_from_fits, hsh, hrefl, hwh, hwav, mkDataFrame,
          hlen]
      · simp [List.length_zip, hlen]
      · exact List.map_fst_zip wav refl (le_of_eq hlen)
      · exact List.map_snd_zip wav refl (ge_of_eq hlen)
    · intro hlen
      simp [extract_spectrum_from_fits, hsh, hrefl, hwh, hwav, mkDataFrame,
        hlen]
  · intro habs
    rcases habs with h | ⟨sh, hsh, hf⟩ | h | ⟨wh, hwh, hf⟩
    · simp [extract_spectrum_from_fits, h]
    · simp [extract_spectrum_from_fits, hsh, hf]
    · cases hsh : getHDU hdul spectraName with
      | none => simp [extract_spectrum_from_fits, hsh]
      | some sh =>
        cases hrefl : getField sh reflectanceField with
        | none => simp [extract_spectrum_from_fits, hsh, hrefl]
        | some refl => simp [extract_spectrum_from_fits, hsh, hrefl, h]
    · cases hsh : getHDU hdul spectraName with
      | none => simp [extract_spectrum_from_fits, hsh]
      | some sh =>
        cases hrefl : getField sh reflectanceField with
        | none => simp [extract_spectrum_from_fits, hsh, hrefl]
        | some refl => simp [extract_spectrum_from_fits, hsh, hrefl, hwh, hf]

/-- C9 witness: a concrete two-HDU file with equal-length columns is read
into two paired rows. -/
theorem C9_fits_reader_columns_witness :
    extract_spectrum_from_fits
      [⟨spectraName, [(reflectanceField, [1, 2])]⟩,
       ⟨wavelengthName, [(wavelengthField, [10, 20])]⟩]
      = some (([10, 20] : List ℚ).zip ([1, 2] : List ℚ)) :=
  (((C9_fits_reader_columns
      [⟨spectraName, [(reflectanceField, [1, 2])]⟩,
       ⟨wavelengthName, [(wavelengthField, [10, 20])]⟩]).1
    ⟨spectraName, [(reflectanceField, [1, 2])]⟩
    ⟨wavelengthName, [(wavelengthField, [10, 20])]⟩
    [1, 2] [10, 20]
    (by simp [getHDU, spectraName, wavelengthName])
    (by simp [getField])
    (by simp [getHDU, spectraName, wavelengthName])
    (by simp [getField])).1 rfl).1

/-- C10: the Batch Converter produces exactly one outcome per directory
entry — the loop never aborts early — and when a recognized (.fits or .txt)
entry's conversion raises, the error is reported with the source filename
and the remaining entries are processed exactly as they would have been
without the failing file (the failure writes nothing and is isolated). -/
theorem C10_batch_error_isolation (pf : String → Option ℚ)
    (overwrite correct_txt_offsets : Bool) (join1? join2? : Option (ℚ × ℚ)) :
    (∀ (entries : List DirEntry) (outputs : List String),
      ((preprocess_spectral_folder pf overwrite correct_txt_offsets join1?
        join2? entries outputs).1).length = entries.length) ∧
    (∀ (f : DirEntry) (rest : List DirEntry) (outputs : List String),
      (f.suffix = ".fits" ∨ f.suffix = ".txt") →
      ¬((f.stem ++ ".csv") ∈ outputs ∧ overwrite = false) →
      convertFile pf correct_txt_offsets join1? join2? f = none →
      preprocess_spectral_folder pf overwrite correct_txt_offsets join1?
          join2? (f :: rest) outputs
        = (FileOutcome.errorReported (f.stem ++ f.suffix) ::
            (preprocess_spectral_folder pf overwrite correct_txt_offsets
              join1? join2? rest outputs).1,
           (preprocess_spectral_folder pf overwrite correct_txt_offsets
             join1? join2? rest outputs).2)) := by
  constructor
  · intro entries
    induction entries with
    | nil => intro outputs; simp [preprocess_spectral_folder]
    | cons f rest ih =>
      intro outputs
      unfold preprocess_spectral_folder
      by_cases hrec : f.suffix = ".fits" ∨ f.suffix = ".txt"
      · rw [if_pos hrec]
        by_cases hskip : (f.stem ++ ".csv") ∈ outputs ∧ overwrite = false
        · rw [if_pos hskip]; simp [ih]
        · rw [if_neg hskip]
          cases hc : convertFile pf correct_txt_offsets join1? join2? f <;>
            simp [hc, ih]
      · rw [if_neg hrec]; simp [ih]
  · intro f rest outputs hrec hskip hc
    conv_lhs => unfold preprocess_spectral_folder
    rw [if_pos hrec, if_neg hskip, hc]

/-- C10 witness: one unreadable .txt entry (its correction fails on the
empty spectrum) is reported by name and leaves nothing else changed. -/
theorem C10_batch_error_isolation_witness :
    preprocess_spectral_folder (fun _ => none) false true none none
        [⟨"a", ".txt", [], []⟩] []
      = (FileOutcome.errorReported ("a" ++ ".txt") ::
          (preprocess_spectral_folder (fun _ => none) false true none none
            [] []).1,
         (preprocess_spectral_folder (fun _ => none) false true none none
           [] []).2) :=
  (C10_batch_error_isolation (fun _ => none) false true none none).2
    ⟨"a", ".txt", [], []⟩ [] [] (Or.inr rfl) (by simp) rfl

end Visir
